import Mathlib

/-!
Shallow embedding of the `DisposableBrowser` client component
(`src/src/app/layout.tsx`): the input-translation pipeline that maps local
pointer, keyboard, scroll, clipboard and navigation input into remote-control
messages posted to the backend `/event` endpoint.

Conventions of the embedding:
- JavaScript numbers are modelled as exact rationals (`ℚ`); `Math.round` is
  Mathlib `round` (both round half toward positive infinity).
- A network request to `/event` is an `EventPayload` value; each handler
  returns the list of requests it initiates.
- The nullable `sessionId` React state is `Option String`.
- A `fetch` promise either resolves (`FetchResult.ok`) or rejects
  (`FetchResult.err`); resolution with a non-2xx status is still `ok`
  because `fetch` only rejects on network failure.
-/

/-- Body of one `POST /event` request, mirroring the JSON objects built in
the source. The `session` field is the `session_id` property and may be
`none` (serialised `null`) when a handler posts without a session. -/
inductive EventPayload where
  | mouseMove (session : Option String) (x y : ℤ)
  | mouseClick (session : Option String) (x y : ℤ) (button : ℕ) (clickCount : ℕ)
  | keyboard (session : Option String) (key : String) (ctrl alt shift meta : Bool)
  | keyText (session : Option String) (text : String)
  | scroll (session : Option String) (deltaY : ℚ) (isTrackpad : Bool)
  | clipboardCopy (session : Option String)
  | clipboardPaste (session : Option String) (text : String)
  | navigate (session : Option String) (url : String)
  | navAction (session : Option String) (action : String)
  deriving DecidableEq, Repr

/-- Outcome of a `fetch` call: the promise resolves or rejects. -/
inductive FetchResult where
  | ok
  | err
  deriving DecidableEq, Repr

/-- The coordinate mapping applied in `handleMouseMove`, `handleClick` and
`handleContextMenu`:
`Math.round(x * (1280 / rect.width))`, `Math.round(y * (720 / rect.height))`. -/
def mapCoord (x y w h : ℚ) : ℤ × ℤ :=
  (round (x * (1280 / w)), round (y * (720 / h)))

/-- Handler `handleMouseMove` (layout.tsx lines 198-221): guard
`if (!sessionId || !videoRef.current) return;`, then compute the local
offset from the bounding rectangle and post one mouse event. -/
def handleMouseMove (sessionId : Option String) (videoPresent : Bool)
    (clientX clientY rectLeft rectTop rectW rectH : ℚ) : List EventPayload :=
  match sessionId, videoPresent with
  | some sid, true =>
    let x := clientX - rectLeft
    let y := clientY - rectTop
    [EventPayload.mouseMove (some sid) (mapCoord x y rectW rectH).1 (mapCoord x y rectW rectH).2]
  | _, _ => []

/-- Handler `handleClick` (layout.tsx lines 223-249): same guard and mapping, posts a
mouse event with `click: true`, `button: e.button`, `clickCount: 1`. -/
def handleClick (sessionId : Option String) (videoPresent : Bool)
    (clientX clientY rectLeft rectTop rectW rectH : ℚ) (button : ℕ) : List EventPayload :=
  match sessionId, videoPresent with
  | some sid, true =>
    let x := clientX - rectLeft
    let y := clientY - rectTop
    [EventPayload.mouseClick (some sid) (mapCoord x y rectW rectH).1 (mapCoord x y rectW rectH).2
      button 1]
  | _, _ => []

/-- Handler `handleContextMenu` (layout.tsx lines 380-405): calls `e.preventDefault()`
unconditionally, then the same guard and mapping, posting a right click
(`button: 2`, `clickCount: 1`). -/
def handleContextMenu (sessionId : Option String) (videoPresent : Bool)
    (clientX clientY rectLeft rectTop rectW rectH : ℚ) : List EventPayload :=
  match sessionId, videoPresent with
  | some sid, true =>
    let x := clientX - rectLeft
    let y := clientY - rectTop
    [EventPayload.mouseClick (some sid) (mapCoord x y rectW rectH).1 (mapCoord x y rectW rectH).2
      2 1]
  | _, _ => []

/-- Handler `handleKeyPress` (layout.tsx lines 360-378): guard on `sessionId`, then
post a keyboard event carrying `text: e.key`. -/
def handleKeyPress (sessionId : Option String) (key : String) : List EventPayload :=
  match sessionId with
  | some sid => [EventPayload.keyText (some sid) key]
  | none => []

/-- The back button `onClick` (layout.tsx lines 414-424): posts
`{session_id: sessionId, type: navigate, action: back}` with no guard on
`sessionId`. -/
def backClick (sessionId : Option String) : List EventPayload :=
  [EventPayload.navAction sessionId "back"]

/-- The forward button `onClick` (layout.tsx lines 432-442): posts
`{session_id: sessionId, type: navigate, action: forward}` with no guard on
`sessionId`. -/
def forwardClick (sessionId : Option String) : List EventPayload :=
  [EventPayload.navAction sessionId "forward"]

/-- Local navigation state: the `url` and `isLoading` React states. -/
structure NavState where
  url : String
  isLoading : Bool
  deriving DecidableEq, Repr

/-- Observable outcome of a `navigate` call: the `/event` requests initiated,
whether the loading flag was raised during the call, and the final state. -/
structure NavOutcome where
  events : List EventPayload
  loadingDuring : Bool
  final : NavState
  deriving DecidableEq, Repr

/-- Function `navigate` (layout.tsx lines 252-273):
guard `if (!sessionId) return;`; `setIsLoading(true)`; `try` awaits the fetch
of the navigate event and then calls `setUrl(targetUrl)` - so the URL update
is skipped when the fetch rejects; `catch` logs; `finally` calls
`setIsLoading(false)`. -/
def navigate (sessionId : Option String) (targetUrl : String) (fr : FetchResult)
    (st : NavState) : NavOutcome :=
  match sessionId with
  | none => { events := [], loadingDuring := false, final := st }
  | some sid =>
    let st1 : NavState := { st with isLoading := true }
    let st2 : NavState :=
      match fr with
      | FetchResult.ok => { st1 with url := targetUrl }
      | FetchResult.err => st1
    { events := [EventPayload.navigate (some sid) targetUrl]
      loadingDuring := true
      final := { st2 with isLoading := false } }

/-- A character of the JavaScript regex class `\w`: ASCII letter, digit or
underscore. -/
def isWordChar (c : Char) : Bool :=
  c.isAlphanum || c == Char.ofNat 95

/-- A character of the class `[\w-]` used for host labels. -/
def isLabelChar (c : Char) : Bool :=
  isWordChar c || c == Char.ofNat 45

/-- A character of the class `[\w- ./?%&=]` used for the path part. -/
def isPathChar (c : Char) : Bool :=
  isLabelChar c || c == Char.ofNat 32 || c == Char.ofNat 46 || c == Char.ofNat 47 ||
    c == Char.ofNat 63 || c == Char.ofNat 37 || c == Char.ofNat 38 || c == Char.ofNat 61

/-- Strips the optional scheme group `(https?:\/\/)?`: the characters of
`http://` or `https://` when one of them is a prefix. -/
def stripScheme (cs : List Char) : List Char :=
  if "http://".data.isPrefixOf cs then cs.drop 7
  else if "https://".data.isPrefixOf cs then cs.drop 8
  else cs

/-- The host part must match `([\w-]+\.)+[\w-]+`: splitting on the literal
dots yields at least two labels, each nonempty and made of label characters. -/
def matchesHost (cs : List Char) : Bool :=
  let labels := cs.splitOn (Char.ofNat 46)
  decide (2 ≤ labels.length) && labels.all fun l => (!l.isEmpty) && l.all isLabelChar

/-- The regex test of `handleSubmit` (layout.tsx line 280):
`/^(https?:\/\/)?([\w-]+\.)+[\w-]+(\/[\w- ./?%&=]*)?$/.test(input)`.
After the optional scheme, the host extends to the first `/` (no host
character can be `/`); an optional path starts at that `/` and consists of
path-class characters. -/
def isUrl (input : String) : Bool :=
  let cs := stripScheme input.data
  let host := cs.takeWhile fun c => c != Char.ofNat 47
  let rest := cs.dropWhile fun c => c != Char.ofNat 47
  match rest with
  | [] => matchesHost host
  | _ :: path => matchesHost host && path.all isPathChar

/-- One hexadecimal digit in upper case, as produced by
`encodeURIComponent`. -/
def hexDigit (n : ℕ) : Char :=
  if n < 10 then Char.ofNat (48 + n) else Char.ofNat (55 + n)

/-- UTF-8 bytes of a code point, used by `encodeURIComponent` for characters
outside its unreserved set. -/
def utf8Bytes (n : ℕ) : List ℕ :=
  if n < 128 then [n]
  else if n < 2048 then [192 + n / 64, 128 + n % 64]
  else if n < 65536 then [224 + n / 4096, 128 + (n / 64) % 64, 128 + n % 64]
  else [240 + n / 262144, 128 + (n / 4096) % 64, 128 + (n / 64) % 64, 128 + n % 64]

/-- Characters `encodeURIComponent` leaves unescaped:
`A-Z a-z 0-9 - _ . ! ~ * ( )` and the single quote. -/
def isUriUnreserved (c : Char) : Bool :=
  c.isAlphanum || c == Char.ofNat 45 || c == Char.ofNat 95 || c == Char.ofNat 46 ||
    c == Char.ofNat 33 || c == Char.ofNat 126 || c == Char.ofNat 42 || c == Char.ofNat 39 ||
    c == Char.ofNat 40 || c == Char.ofNat 41

/-- JavaScript `encodeURIComponent`: unreserved characters pass through,
every other character is percent-encoded byte by byte in upper-case hex. -/
def encodeURIComponent (s : String) : String :=
  String.mk (s.data.flatMap fun c =>
    if isUriUnreserved c then [c]
    else (utf8Bytes c.toNat).flatMap fun b => [Char.ofNat 37, hexDigit (b / 16), hexDigit (b % 16)])

/-- The URL handed to `navigate` by `handleSubmit` for an already trimmed
input (layout.tsx lines 280-290): if the regex test succeeds, prefix
`https://` unless the input starts with the literal `http`
(`input.startsWith("http")`, modelled as a character-list prefix test);
otherwise build the Google search URL with the input percent-encoded. -/
def submitTarget (input : String) : String :=
  if isUrl input then
    if "http".data.isPrefixOf input.data then input else "https://" ++ input
  else
    "https://www.google.com/search?q=" ++ encodeURIComponent input

/-- A JavaScript `String.prototype.trim` whitespace character (the ASCII
ones: space, tab, line feed, vertical tab, form feed, carriage return). -/
def isJsWhitespace (c : Char) : Bool :=
  c == Char.ofNat 32 || c == Char.ofNat 9 || c == Char.ofNat 10 ||
    c == Char.ofNat 11 || c == Char.ofNat 12 || c == Char.ofNat 13

/-- JavaScript `trim`: drop whitespace from both ends. -/
def jsTrim (s : String) : String :=
  String.mk (((s.data.dropWhile isJsWhitespace).reverse.dropWhile isJsWhitespace).reverse)

/-- Handler `handleSubmit` (layout.tsx lines 275-291): trims the raw text field value
and navigates to the resulting target. -/
def handleSubmit (rawUrl : String) : String :=
  submitTarget (jsTrim rawUrl)

/-- Observable outcome of `handleKeyDown`: the `/event` requests initiated,
the text written to the local system clipboard by the copy path (if any),
and whether `preventDefault` was called. -/
structure KeyDownOutcome where
  events : List EventPayload
  wroteClipboard : Option String
  preventedDefault : Bool
  deriving DecidableEq, Repr

/-- Handler `handleKeyDown` (layout.tsx lines 293-358): guard on `sessionId`; with
ctrl or meta held, key `c` posts a clipboard copy event and, when that fetch
resolves with a body whose `text` field is a nonempty string, writes it to
the local clipboard (`if (data.text)` - empty strings are falsy); key `v`
awaits `navigator.clipboard.readText()` and posts a paste event only when
the read succeeds (a rejected read lands in the `catch` before the fetch);
both branches `return`. Every other key posts one keyboard event. No branch
calls `e.preventDefault()`.

`copyFetchOk` is whether the copy fetch and its `response.json()` resolve;
`copyResponseText` is the `text` field of the parsed body (`none` when
absent); `localClipboard` is the result of `readText` (`none` when it
rejects). -/
def handleKeyDown (sessionId : Option String) (ctrlKey altKey shiftKey metaKey : Bool)
    (key : String) (copyFetchOk : Bool) (copyResponseText : Option String)
    (localClipboard : Option String) : KeyDownOutcome :=
  match sessionId with
  | none => { events := [], wroteClipboard := none, preventedDefault := false }
  | some sid =>
    if ctrlKey || metaKey then
      if key == "c" then
        { events := [EventPayload.clipboardCopy (some sid)]
          wroteClipboard :=
            if copyFetchOk then
              match copyResponseText with
              | some t => if t == "" then none else some t
              | none => none
            else none
          preventedDefault := false }
      else if key == "v" then
        { events :=
            match localClipboard with
            | some t => [EventPayload.clipboardPaste (some sid) t]
            | none => []
          wroteClipboard := none
          preventedDefault := false }
      else
        { events := [EventPayload.keyboard (some sid) key ctrlKey altKey shiftKey metaKey]
          wroteClipboard := none
          preventedDefault := false }
    else
      { events := [EventPayload.keyboard (some sid) key ctrlKey altKey shiftKey metaKey]
        wroteClipboard := none
        preventedDefault := false }

/-- Number of clipboard events in a request list. -/
def countClipboard : List EventPayload → ℕ
  | [] => 0
  | EventPayload.clipboardCopy _ :: rest => 1 + countClipboard rest
  | EventPayload.clipboardPaste _ _ :: rest => 1 + countClipboard rest
  | _ :: rest => countClipboard rest

/-- Number of keyboard events (key-down or text variants) in a request
list. -/
def countKeyboard : List EventPayload → ℕ
  | [] => 0
  | EventPayload.keyboard _ _ _ _ _ _ :: rest => 1 + countKeyboard rest
  | EventPayload.keyText _ _ :: rest => 1 + countKeyboard rest
  | _ :: rest => countKeyboard rest

/-- Device classification `Math.abs(e.deltaY) < 50` (layout.tsx line 152). -/
def isTrackpadOf (deltaY : ℚ) : Bool :=
  decide (|deltaY| < 50)

/-- The scroll multiplier (layout.tsx lines 155-160):
`isTrackpad ? 8 : 3`, then `*= 1.5` when the elapsed time since the previous
wheel event is under 100 ms. Times are integer milliseconds, as returned by
`Date.now()`. -/
def multiplierOf (isTrackpad : Bool) (timeDiff : ℤ) : ℚ :=
  let m : ℚ := if isTrackpad then 8 else 3
  if timeDiff < 100 then m * (3 / 2) else m

/-- State of the scroll coalescer: the `lastScrollTime` ref and the single
pending debounce timer (`scrollTimeout` ref), holding its fire time and the
payload its callback will post. -/
structure ScrollState where
  lastScrollTime : ℤ
  pending : Option (ℤ × EventPayload)
  deriving DecidableEq, Repr

/-- Result of `handleWheelEvent`: whether `preventDefault` was called and
the updated coalescer state. -/
structure WheelResult where
  preventedDefault : Bool
  state : ScrollState
  deriving DecidableEq, Repr

/-- Handler `handleWheelEvent` (layout.tsx lines 143-186): `e.preventDefault()`
first, then guard on `sessionId`; computes the time difference, updates
`lastScrollTime`, classifies the device, scales the delta, clears any
pending timeout and schedules a new emission 16 ms later carrying the scaled
delta and classification. -/
def handleWheelEvent (sessionId : Option String) (now : ℤ) (deltaY : ℚ)
    (s : ScrollState) : WheelResult :=
  match sessionId with
  | none => { preventedDefault := true, state := s }
  | some sid =>
    let timeDiff := now - s.lastScrollTime
    let isTrackpad := isTrackpadOf deltaY
    let multiplier := multiplierOf isTrackpad timeDiff
    let scaled := deltaY * multiplier
    { preventedDefault := true
      state :=
        { lastScrollTime := now
          pending := some (now + 16, EventPayload.scroll (some sid) scaled isTrackpad) } }

/-- A due pending timer fires before the next wheel event is handled: if the
scheduled fire time is at or before the current time, its payload is posted
and the slot empties (`clearTimeout` on an already fired timer is a no-op). -/
def flushIfDue (t : ℤ) (s : ScrollState) : List EventPayload × ScrollState :=
  match s.pending with
  | some (ft, msg) => if ft ≤ t then ([msg], { s with pending := none }) else ([], s)
  | none => ([], s)

/-- One wheel event `(time, deltaY)` against the coalescer: first fire a due
pending timer, then run the handler. -/
def stepWheel (sessionId : Option String) (acc : List EventPayload × ScrollState)
    (ev : ℤ × ℚ) : List EventPayload × ScrollState :=
  let flushed := flushIfDue ev.1 acc.2
  (acc.1 ++ flushed.1, (handleWheelEvent sessionId ev.1 ev.2 flushed.2).state)

/-- The state after a sequence of wheel events with no timer firing in
between: a plain fold of the handler. -/
def foldWheel (sessionId : Option String) (s : ScrollState) (evs : List (ℤ × ℚ)) : ScrollState :=
  evs.foldl (fun st ev => (handleWheelEvent sessionId ev.1 ev.2 st).state) s

/-- All `/event` requests emitted by a timed sequence of wheel events,
including the final pending timer firing after the sequence ends. -/
def runWheelAll (sessionId : Option String) (s0 : ScrollState)
    (evs : List (ℤ × ℚ)) : List EventPayload :=
  let run := evs.foldl (stepWheel sessionId) ([], s0)
  run.1 ++ (match run.2.pending with
    | some (_, msg) => [msg]
    | none => [])

/-- The coalescing-window condition: each wheel event arrives strictly
before the previous event plus 16 ms, i.e. before the timer the previous
event scheduled can fire. -/
def gapsOk : List (ℤ × ℚ) → Bool
  | (t1, _) :: (t2, d2) :: rest => decide (t2 < t1 + 16) && gapsOk ((t2, d2) :: rest)
  | _ => true

/-!
Theorems settling the specification claims.
-/

/-- C8: for every wheel event on the rendered surface the default browser
scroll behavior is suppressed - `handleWheelEvent` calls `preventDefault`
before the session guard, so it happens both when a session exists and when
no session exists. -/
theorem wheel_always_prevents_default (sessionId : Option String) (now : ℤ)
    (deltaY : ℚ) (s : ScrollState) :
    (handleWheelEvent sessionId now deltaY s).preventedDefault = true := by
  cases sessionId <;> rfl

/-- C10: a `navigate` call with no session identifier is a complete no-op:
no request is issued, the loading flag is never raised, and the navigation
state is returned unchanged. -/
theorem navigate_no_session_noop (targetUrl : String) (fr : FetchResult) (st : NavState) :
    navigate none targetUrl fr st =
      { events := [], loadingDuring := false, final := st } :=
  rfl

/-- C5: for every wheel event with an active session, the scheduled payload
classifies the device by `abs deltaY < 50`, uses base multiplier 8 for a
trackpad and 3 otherwise, multiplies by 1.5 exactly when the elapsed time
since the previous wheel event is under 100 ms, and carries `deltaY` times
that multiplier; `deltaY = 40` classifies as trackpad and `deltaY = 120`
does not. -/
theorem wheel_scaling_spec (sid : String) (now : ℤ) (deltaY : ℚ) (s : ScrollState) :
    (handleWheelEvent (some sid) now deltaY s).state.pending =
      some (now + 16,
        EventPayload.scroll (some sid)
          (deltaY * ((if |deltaY| < 50 then (8 : ℚ) else 3) *
            (if now - s.lastScrollTime < 100 then 3 / 2 else 1)))
          (decide (|deltaY| < 50)))
    ∧ isTrackpadOf 40 = true ∧ isTrackpadOf 120 = false := by
  refine ⟨?_, by decide, by decide⟩
  simp only [handleWheelEvent, multiplierOf, isTrackpadOf]
  by_cases h1 : |deltaY| < 50 <;> by_cases h2 : now - s.lastScrollTime < 100 <;>
    simp [h1, h2]

/-- C3 counterexample: with an active session and a rejected fetch, the
local URL is not updated to the target (the `setUrl` call sits inside the
`try` after the awaited fetch), contradicting the claimed unconditional
update on completion. -/
theorem navigate_failed_fetch_keeps_url :
    (navigate (some "abc") "https://b.com" FetchResult.err
        { url := "https://a.com", isLoading := false }).final.url = "https://a.com"
    ∧ "https://a.com" ≠ "https://b.com" :=
  ⟨rfl, by decide⟩

/-- C3 amended: `navigate` with an active session raises the loading flag,
sends the navigate event, updates the URL only when the fetch resolves
(on a rejected fetch the URL is unchanged), and always clears the loading
flag in the `finally` cleanup. -/
theorem navigate_spec (sid targetUrl : String) (fr : FetchResult) (st : NavState) :
    navigate (some sid) targetUrl fr st =
      { events := [EventPayload.navigate (some sid) targetUrl]
        loadingDuring := true
        final :=
          { url := match fr with
              | FetchResult.ok => targetUrl
              | FetchResult.err => st.url
            isLoading := false } } := by
  cases fr <;> rfl

/-- C1: evaluation at the failing input. With `sessionId = null`, every
input handler drops its event - except the back and forward buttons, which
post a navigate-action request carrying a null session identifier. -/
theorem back_forward_unguarded :
    backClick none = [EventPayload.navAction none "back"]
    ∧ forwardClick none = [EventPayload.navAction none "forward"]
    ∧ handleMouseMove none true 100 50 0 0 200 100 = []
    ∧ handleClick none true 100 50 0 0 200 100 0 = []
    ∧ handleContextMenu none true 100 50 0 0 200 100 = []
    ∧ (handleKeyDown none true false false false "c" true (some "x") (some "y")).events = []
    ∧ handleKeyPress none "a" = []
    ∧ runWheelAll none { lastScrollTime := 0, pending := none } [((1000 : ℤ), (40 : ℚ)), (1010, 40)] = []
    ∧ (navigate none "https://b.com" FetchResult.ok
        { url := "https://a.com", isLoading := false }).events = [] := by
  refine ⟨rfl, rfl, rfl, rfl, rfl, rfl, rfl, ?_, rfl⟩
  rfl

/-- C6: evaluation at the failing input. The trimmed text `http.com`
matches the hostname pattern and has no scheme, yet `handleSubmit` does not
prefix `https://` because the code only checks `startsWith("http")`, so the
navigation target is the unmodified `http.com`. -/
theorem submit_http_com_unprefixed :
    isUrl "http.com" = true
    ∧ handleSubmit "http.com" = "http.com"
    ∧ handleSubmit "http.com" ≠ "https://http.com" := by
  exact ⟨by decide, by decide, by decide⟩

/-- C7 counterexample: for ctrl plus `c` with an active session and a copy
response whose `text` field is present but empty, the handler neither
suppresses the default key handling (no `preventDefault` call exists in
`handleKeyDown`) nor writes the present text to the local clipboard (empty
strings are falsy under `if (data.text)`). -/
theorem copy_no_prevent_default :
    (handleKeyDown (some "abc") true false false false "c" true (some "") (some "x")).preventedDefault
      = false
    ∧ (handleKeyDown (some "abc") true false false false "c" true (some "") (some "x")).wroteClipboard
      = none :=
  ⟨rfl, rfl⟩

/-- C7 amended: with an active session and ctrl or meta held, the copy path
sends exactly the clipboard-copy event and writes the response text to the
local clipboard if and only if the fetch resolves and the text is present
and nonempty; the paste path sends the clipboard-paste event with the local
clipboard text exactly when the local read succeeds; neither path calls
`preventDefault`, and errors are swallowed (failure inputs yield a normal
outcome, never an exceptional one). -/
theorem clipboard_bridge_spec (sid : String) (ctrlKey altKey shiftKey metaKey : Bool)
    (copyFetchOk : Bool) (copyResponseText localClipboard : Option String)
    (hmod : (ctrlKey || metaKey) = true) :
    handleKeyDown (some sid) ctrlKey altKey shiftKey metaKey "c" copyFetchOk
        copyResponseText localClipboard =
      { events := [EventPayload.clipboardCopy (some sid)]
        wroteClipboard :=
          if copyFetchOk then
            match copyResponseText with
            | some t => if t == "" then none else some t
            | none => none
          else none
        preventedDefault := false }
    ∧ handleKeyDown (some sid) ctrlKey altKey shiftKey metaKey "v" copyFetchOk
        copyResponseText localClipboard =
      { events :=
          match localClipboard with
          | some t => [EventPayload.clipboardPaste (some sid) t]
          | none => []
        wroteClipboard := none
        preventedDefault := false } := by
  constructor <;> simp [handleKeyDown, hmod]

/-- C7 witness: concrete copy with a nonempty response text. -/
theorem clipboard_bridge_spec_witness :
    ((true : Bool) || false) = true
    ∧ handleKeyDown (some "abc") true false false false "c" true (some "hello") none =
      { events := [EventPayload.clipboardCopy (some "abc")]
        wroteClipboard := some "hello"
        preventedDefault := false } := by
  refine ⟨rfl, ?_⟩
  exact (clipboard_bridge_spec "abc" true false false false true (some "hello") none rfl).1.trans
    (by decide)

/-- C9 counterexample: ctrl plus `v` with an active session but a failing
local clipboard read sends zero clipboard events, not exactly one (the
fetch sits after the awaited read inside the `try`). -/
theorem paste_read_failure_no_event :
    countClipboard (handleKeyDown (some "abc") true false false false "v" true none none).events = 0
    ∧ countKeyboard (handleKeyDown (some "abc") true false false false "v" true none none).events = 0 :=
  ⟨rfl, rfl⟩

/-- C9 amended: for keys `c` and `v` with ctrl or meta and an active
session, no keyboard event is dispatched (the handler returns inside the
clipboard branches); the copy path sends exactly one clipboard event, and
the paste path sends exactly one unless the local clipboard read fails, in
which case it sends none. -/
theorem clipboard_shortcut_no_keyboard (sid : String)
    (ctrlKey altKey shiftKey metaKey : Bool) (key : String) (copyFetchOk : Bool)
    (copyResponseText localClipboard : Option String)
    (hmod : (ctrlKey || metaKey) = true) (hkey : key = "c" ∨ key = "v") :
    countKeyboard (handleKeyDown (some sid) ctrlKey altKey shiftKey metaKey key copyFetchOk
        copyResponseText localClipboard).events = 0
    ∧ countClipboard (handleKeyDown (some sid) ctrlKey altKey shiftKey metaKey key copyFetchOk
        copyResponseText localClipboard).events =
        (if key = "v" ∧ localClipboard = none then 0 else 1) := by
  rcases hkey with rfl | rfl
  · cases localClipboard <;>
      simp [handleKeyDown, hmod, countClipboard, countKeyboard]
  · cases localClipboard <;>
      simp [handleKeyDown, hmod, countClipboard, countKeyboard]

/-- C9 witness: concrete ctrl plus `c` key-down. -/
theorem clipboard_shortcut_no_keyboard_witness :
    ((true : Bool) || false) = true
    ∧ ("c" = "c" ∨ "c" = "v")
    ∧ countKeyboard (handleKeyDown (some "abc") true false false false "c" true (some "t")
        (some "u")).events = 0
    ∧ countClipboard (handleKeyDown (some "abc") true false false false "c" true (some "t")
        (some "u")).events = (if "c" = "v" ∧ (some "u" : Option String) = none then 0 else 1) :=
  ⟨rfl, Or.inl rfl,
    (clipboard_shortcut_no_keyboard "abc" true false false false "c" true (some "t") (some "u")
      rfl (Or.inl rfl)).1,
    (clipboard_shortcut_no_keyboard "abc" true false false false "c" true (some "t") (some "u")
      rfl (Or.inl rfl)).2⟩

/-- Rounding is monotone (shared helper for the coordinate bounds). -/
theorem round_le_round_of_le {a b : ℚ} (h : a ≤ b) : round a ≤ round b := by
  rw [round_eq, round_eq]
  exact Int.floor_le_floor (by linarith)

/-- C2: for positive surface dimensions and in-bounds local coordinates the
mapper computes `(round (x * 1280 / w), round (y * 720 / h))`, the result
lies in `[0, 1280] × [0, 720]`, the origin maps to the origin, and the
bottom-right corner maps to `(1280, 720)`. -/
theorem mapper_spec (x y w h : ℚ) (hw : 0 < w) (hh : 0 < h)
    (hx0 : 0 ≤ x) (hxw : x ≤ w) (hy0 : 0 ≤ y) (hyh : y ≤ h) :
    mapCoord x y w h = (round (x * 1280 / w), round (y * 720 / h))
    ∧ 0 ≤ (mapCoord x y w h).1 ∧ (mapCoord x y w h).1 ≤ 1280
    ∧ 0 ≤ (mapCoord x y w h).2 ∧ (mapCoord x y w h).2 ≤ 720
    ∧ mapCoord 0 0 w h = (0, 0)
    ∧ mapCoord w h w h = (1280, 720) := by
  have hxq : x * (1280 / w) ≤ 1280 := by
    have h1 : x * (1280 / w) ≤ w * (1280 / w) :=
      mul_le_mul_of_nonneg_right hxw (by positivity)
    have h2 : w * (1280 / w) = 1280 := by
      field_simp
    linarith
  have hyq : y * (720 / h) ≤ 720 := by
    have h1 : y * (720 / h) ≤ h * (720 / h) :=
      mul_le_mul_of_nonneg_right hyh (by positivity)
    have h2 : h * (720 / h) = 720 := by
      field_simp
    linarith
  have hx0q : (0 : ℚ) ≤ x * (1280 / w) := by positivity
  have hy0q : (0 : ℚ) ≤ y * (720 / h) := by positivity
  refine ⟨?_, ?_, ?_, ?_, ?_, ?_, ?_⟩
  · simp only [mapCoord, mul_div_assoc]
  · simpa using round_le_round_of_le hx0q
  · simpa using round_le_round_of_le hxq
  · simpa using round_le_round_of_le hy0q
  · simpa using round_le_round_of_le hyq
  · simp [mapCoord]
  · have e1 : w * (1280 / w) = 1280 := by field_simp
    have e2 : h * (720 / h) = 720 := by field_simp
    simp [mapCoord, e1, e2]

/-- C2 witness: the end-to-end example of the spec - a click at local
`(100, 50)` on a `200 x 100` surface maps to `(640, 360)`. -/
theorem mapper_spec_witness :
    (0 : ℚ) < 200 ∧ (0 : ℚ) < 100 ∧ (0 : ℚ) ≤ 100 ∧ (100 : ℚ) ≤ 200
    ∧ (0 : ℚ) ≤ 50 ∧ (50 : ℚ) ≤ 100
    ∧ mapCoord 100 50 200 100 = (round ((100 : ℚ) * 1280 / 200), round ((50 : ℚ) * 720 / 100))
    ∧ mapCoord 100 50 200 100 = (640, 360) := by
  have hm := mapper_spec 100 50 200 100 (by norm_num) (by norm_num) (by norm_num)
    (by norm_num) (by norm_num) (by norm_num)
  refine ⟨by norm_num, by norm_num, by norm_num, by norm_num, by norm_num, by norm_num,
    hm.1, hm.1.trans ?_⟩
  have e1 : ((100 : ℚ) * 1280 / 200) = 640 := by norm_num
  have e2 : ((50 : ℚ) * 720 / 100) = 360 := by norm_num
  rw [e1, e2]
  simp

/-- Auxiliary invariant for the coalescer run: the first event of the list
arrives strictly before any pending timer fires. -/
def headSafe (s : ScrollState) : List (ℤ × ℚ) → Prop
  | [] => True
  | (t, _) :: _ => ∀ ft msg, s.pending = some (ft, msg) → t < ft

/-- A state with no pending timer is head-safe for any event list. -/
theorem headSafe_of_pending_none {s : ScrollState} (h : s.pending = none)
    (l : List (ℤ × ℚ)) : headSafe s l := by
  cases l with
  | nil => trivial
  | cons e r =>
    obtain ⟨a, b⟩ := e
    intro ft msg hp
    rw [h] at hp
    simp at hp

/-- Within one coalescing window no intermediate timer fires: the run is a
plain fold of the handler and emits nothing along the way. -/
theorem foldl_stepWheel_no_flush (sid : String) :
    ∀ (evs : List (ℤ × ℚ)) (msgs : List EventPayload) (s : ScrollState),
      gapsOk evs = true → headSafe s evs →
      evs.foldl (stepWheel (some sid)) (msgs, s) = (msgs, foldWheel (some sid) s evs) := by
  intro evs
  induction evs with
  | nil => intro msgs s _ _; rfl
  | cons ev rest ih =>
    intro msgs s hg hs
    obtain ⟨t, d⟩ := ev
    have hflush : flushIfDue t s = ([], s) := by
      cases hp : s.pending with
      | none => simp [flushIfDue, hp]
      | some p =>
        obtain ⟨ft, msg⟩ := p
        have hlt : t < ft := hs ft msg hp
        simp [flushIfDue, hp, if_neg (not_le.mpr hlt)]
    have step1 : stepWheel (some sid) (msgs, s) (t, d) =
        (msgs, (handleWheelEvent (some sid) t d s).state) := by
      simp [stepWheel, hflush]
    rw [List.foldl_cons, step1]
    have hg' : gapsOk rest = true := by
      cases rest with
      | nil => rfl
      | cons e2 r2 =>
        obtain ⟨t2, d2⟩ := e2
        simp only [gapsOk, Bool.and_eq_true] at hg
        exact hg.2
    have hs' : headSafe (handleWheelEvent (some sid) t d s).state rest := by
      cases rest with
      | nil => trivial
      | cons e2 r2 =>
        obtain ⟨t2, d2⟩ := e2
        intro ft msg hp
        have hpend : (handleWheelEvent (some sid) t d s).state.pending =
            some (t + 16, EventPayload.scroll (some sid)
              (d * multiplierOf (isTrackpadOf d) (t - s.lastScrollTime)) (isTrackpadOf d)) := rfl
        rw [hpend] at hp
        simp only [Option.some.injEq, Prod.mk.injEq] at hp
        rw [← hp.1]
        simp only [gapsOk, Bool.and_eq_true, decide_eq_true_eq] at hg
        exact hg.1
    rw [ih msgs (handleWheelEvent (some sid) t d s).state hg' hs']
    rfl

/-- C4: for every nonempty sequence of wheel events with an active session,
starting with no pending timer, in which each event arrives within the 16 ms
coalescing window of its predecessor, exactly one coalesced scroll message
is emitted and it carries the last event's scaled delta and device
classification (each event having cancelled and rescheduled the single
pending timer). -/
theorem scroll_coalescer_single_emission (sid : String) (s0 : ScrollState)
    (pre : List (ℤ × ℚ)) (t : ℤ) (d : ℚ)
    (h0 : s0.pending = none) (hg : gapsOk (pre ++ [(t, d)]) = true) :
    runWheelAll (some sid) s0 (pre ++ [(t, d)]) =
      [EventPayload.scroll (some sid)
        (d * multiplierOf (isTrackpadOf d) (t - (foldWheel (some sid) s0 pre).lastScrollTime))
        (isTrackpadOf d)] := by
  have hrun := foldl_stepWheel_no_flush sid (pre ++ [(t, d)]) [] s0 hg
    (headSafe_of_pending_none h0 _)
  have hfold : foldWheel (some sid) s0 (pre ++ [(t, d)]) =
      (handleWheelEvent (some sid) t d (foldWheel (some sid) s0 pre)).state := by
    simp [foldWheel, List.foldl_append]
  unfold runWheelAll
  rw [hrun, hfold]
  rfl

/-- C4 witness: two wheel events 10 ms apart with trackpad-sized deltas -
one emission, carrying the later event's delta scaled by 8 times 1.5. -/
theorem scroll_coalescer_single_emission_witness :
    ({ lastScrollTime := 0, pending := none } : ScrollState).pending = none
    ∧ gapsOk [((1000 : ℤ), (40 : ℚ)), (1010, 40)] = true
    ∧ runWheelAll (some "abc") { lastScrollTime := 0, pending := none }
        [((1000 : ℤ), (40 : ℚ)), (1010, 40)] = [EventPayload.scroll (some "abc") 480 true] := by
  refine ⟨rfl, by decide, ?_⟩
  have h := scroll_coalescer_single_emission "abc" { lastScrollTime := 0, pending := none }
    [((1000 : ℤ), (40 : ℚ))] 1010 40 rfl (by decide)
  refine h.trans ?_
  norm_num [foldWheel, handleWheelEvent, multiplierOf, isTrackpadOf]
